import Mathlib

/-!
Verification of the traceAssist backend pipeline (src/traceAssist/backend/main.py).

The Python source is shallowly embedded: filesystem trees become an inductive
type, external tools (git, docker, kubectl) become oracle functions passed as
arguments, and endpoint control flow (including exception handling) becomes
explicit result values of type `Except HTTPError _` together with booleans
recording which on-disk state survives the call.
-/

/-- Result of a FastAPI HTTPException: status code plus detail string. -/
structure HTTPError where
  status : Nat
  detail : String
deriving Repr, DecidableEq

/-! ## String helpers mirroring Python primitives -/

/-- Python `s[:n]` on a string: the first `n` characters. -/
def strTake (s : String) (n : Nat) : String := String.mk (s.data.take n)

/-- Helper: does the first list start with the second one? -/
def listStartsWith : List Char → List Char → Bool
  | _, [] => true
  | [], _ :: _ => false
  | a :: as, b :: bs => a = b && listStartsWith as bs

/-- Helper: does the second list occur as a contiguous sublist of the first? -/
def listHasSub : List Char → List Char → Bool
  | [], pat => pat.isEmpty
  | c :: rest, pat => listStartsWith (c :: rest) pat || listHasSub rest pat

/-- Python `pat in s` substring containment. -/
def containsStr (s pat : String) : Bool := listHasSub s.data pat.data

/-- Python `s.startswith(p)`. -/
def strStarts (s p : String) : Bool := listStartsWith s.data p.data

/-- Python `s.endswith(p)`. -/
def strEnds (s p : String) : Bool := listStartsWith s.data.reverse p.data.reverse

/-- Split a character list at a separator character (`str.split(sep)` with a
one-character separator). -/
def splitChar (sep : Char) : List Char → List (List Char)
  | [] => [[]]
  | c :: rest =>
    let r := splitChar sep rest
    if c = sep then [] :: r
    else
      match r with
      | h :: t => (c :: h) :: t
      | [] => [[c]]

/-- Python `s.lower()` (ASCII case folding, which is all that the matched
git messages use). -/
def strLower (s : String) : String := String.mk (s.data.map Char.toLower)

/-- Python `s.strip()`: drop whitespace from both ends. -/
def pyStrip (s : String) : String :=
  String.mk (((s.data.dropWhile Char.isWhitespace).reverse.dropWhile Char.isWhitespace).reverse)

/-- Total length of a list of string parts. -/
def partsLen (l : List String) : Nat := (l.map String.length).sum

/-- A single-quote character as a string, used to spell the git message
patterns that contain one. -/
def apos : String := String.mk [Char.ofNat 39]

/-! ## Unpack-from-archive (`upload_zip`, main.py lines 410-445) -/

/-- The zip member test from `upload_zip`:
`member.startswith("/") or ".." in member`. -/
def badEntry (member : String) : Bool :=
  strStarts member "/" || containsStr member ".."

/-- A genuine path-traversal entry: absolute, or with a `..` path segment.
This is what the spec means by an escape; used to show the implemented check
is strictly broader. -/
def isPathTraversal (member : String) : Bool :=
  strStarts member "/" || (splitChar '/' member.data).contains ['.', '.']

deriving instance DecidableEq for Except

/-- Caller-visible outcome of `upload_zip` together with what is left on disk. -/
structure UploadOutcome where
  response : Except HTTPError String
  appDirExists : Bool
  zipFileExists : Bool
deriving Repr, DecidableEq

/-- Test for an error response. -/
def responseIsError : Except HTTPError String → Bool
  | .error _ => true
  | .ok _ => false

/-- Model of the `/upload` endpoint `upload_zip` (main.py lines 410-445).
`wellFormed` models whether `zipfile.ZipFile` accepts the payload, and
`members` is `z_ref.namelist()`.  Control flow from the source: a bad zip
raises `BadZipFile`, which removes the app dir and returns HTTP 400; an
illegal member raises `HTTPException(400, "Invalid file path in zip
archive.")` inside the `try`, which is then caught by the broad
`except Exception` clause, the app dir is removed, and HTTP 500 is raised
with the stringified inner exception (`str(e)` of a Starlette HTTPException
is `"{status_code}: {detail}"`).  The `finally` block removes the zip file;
when the app dir was already removed the zip inside it is gone as well, so
no temporary archive survives in any case. -/
def upload_zip (wellFormed : Bool) (members : List String) : UploadOutcome :=
  if !wellFormed then
    { response := .error { status := 400, detail := "Uploaded file is not a valid zip archive." },
      appDirExists := false,
      zipFileExists := false }
  else
    match members.find? badEntry with
    | some _ =>
      { response := .error
          ⟨500, "Failed to process uploaded file: 400: Invalid file path in zip archive."⟩,
        appDirExists := false,
        zipFileExists := false }
    | none =>
      { response := .ok "File uploaded and extracted successfully.",
        appDirExists := true,
        zipFileExists := false }

/-! ## Branch normalization (`GitCloneRequest.normalize_default_branch`,
main.py lines 97-111) -/

/-- Model of the `branch` validator: `None` becomes `"main"`; a string is
stripped; an empty strip result becomes `"main"`; the exact stripped string
`"master"` becomes `"main"`; anything else is returned stripped. -/
def normalize_default_branch : Option String → String
  | none => "main"
  | some v =>
    let v := pyStrip v
    if v = "" then "main"
    else if v = "master" then "main"
    else v

/-! ## Clone-from-remote (`clone_repo`, main.py lines 448-567) -/

/-- Hex digit characters for percent encoding (uppercase, as `urllib.parse.quote`). -/
def hexDigitChar (n : Nat) : Char := if n < 10 then Char.ofNat (48 + n) else Char.ofNat (55 + n)

/-- UTF-8 bytes of a code point. -/
def utf8Bytes (n : Nat) : List Nat :=
  if n < 128 then [n]
  else if n < 2048 then [192 + n / 64, 128 + n % 64]
  else if n < 65536 then [224 + n / 4096, 128 + (n / 64) % 64, 128 + n % 64]
  else [240 + n / 262144, 128 + (n / 4096) % 64, 128 + (n / 64) % 64, 128 + n % 64]

/-- Model of `urllib.parse.quote(token, safe='')`: unreserved characters kept,
everything else percent-encoded per UTF-8 byte. -/
def percentEncode (s : String) : String :=
  String.join (s.data.map fun c =>
    if c.isAlphanum || c = '-' || c = '_' || c = '.' || c = '~' then String.mk [c]
    else String.join ((utf8Bytes c.toNat).map fun b =>
      String.mk ['%', hexDigitChar (b / 16), hexDigitChar (b % 16)]))

/-- Model of the PAT injection in `clone_repo` (main.py lines 454-484): if a
token is configured, the URL scheme is https and the hostname contains
`github.com`, the percent-encoded token is placed in the userinfo position;
otherwise the original URL is used.  The model covers URLs of the plain shape
`https://host/path...`, with no userinfo or explicit port, which is the shape
the endpoint receives; `urlparse` lowercases the hostname, mirrored here. -/
def buildEffectiveUrl (pat : Option String) (repoUrl : String) : String :=
  match pat with
  | none => repoUrl
  | some tok =>
    if strStarts repoUrl "https://" then
      let rest := String.mk (repoUrl.data.drop 8)
      let netloc := String.mk ((splitChar '/' rest.data).headD [])
      let path := String.mk (rest.data.drop netloc.data.length)
      let hostname := strLower netloc
      if containsStr hostname "github.com" && netloc ≠ "" then
        "https://" ++ percentEncode tok ++ "@" ++ hostname ++ path
      else repoUrl
    else repoUrl

/-- The branch-not-found pattern `couldn't find remote ref` from main.py line 527. -/
def refNotFoundPat : String := "couldn" ++ apos ++ "t find remote ref"

/-- Classification of a git error in the clone loop (main.py lines 513-534).
Matching is a substring test of fixed patterns against the lowercased stderr,
exactly as in the source; note the source lowercases the text but leaves the
capital `U` in the first pattern, so that branch cannot match. -/
inductive GitClass where
  | authConfig
  | authFailed
  | repoNotFound
  | branchNotFound
  | other
deriving Repr, DecidableEq

/-- The in-loop classification chain from main.py lines 518-534. -/
def classifyStderr (st : String) : GitClass :=
  let l := strLower st
  if containsStr l "could not read Username" then .authConfig
  else if containsStr l "authentication failed" then .authFailed
  else if containsStr l "repository not found" && !containsStr l "authentication failed" then
    .repoNotFound
  else if containsStr l refNotFoundPat || containsStr l "not found" then .branchNotFound
  else .other

/-- The branch-fallback loop of `clone_repo` (main.py lines 499-534), with git
as an oracle from branch name to clone result.  The oracle error string models
`e.stderr or str(e)`.  Returns the branch that succeeded, if any, together
with the last captured stderr: branch-not-found errors continue with the next
candidate, every other class breaks the loop. -/
def cloneLoop (git : String → Except String Unit) : List String → String → Option String × String
  | [], lastErr => (none, lastErr)
  | b :: rest, _ =>
    match git b with
    | .ok _ => (some b, "")
    | .error st =>
      match classifyStderr st with
      | .branchNotFound => cloneLoop git rest st
      | _ => (none, st)

/-- The final status mapping when all candidates failed (main.py lines 543-562). -/
def cloneFailStatus (st : String) : Nat :=
  if st ≠ "" then
    let l := strLower st
    if containsStr l "could not read Username" then 500
    else if containsStr l "authentication failed" then 403
    else if containsStr l "repository not found" && !containsStr l "authentication failed" then 404
    else 500
  else 404

/-- The final detail message when all candidates failed (main.py lines 543-562).
Each branch with a captured stderr appends the stderr in full. -/
def cloneFailDetail (repoUrl : String) (branches : List String) (st : String) : String :=
  let joined := String.intercalate ", " branches
  let base := "Failed to clone from repository " ++ repoUrl ++ " on tried branch(es): " ++
    joined ++ "."
  if st ≠ "" then
    let l := strLower st
    if containsStr l "could not read Username" then
      base ++ " Git tried to prompt for username, indicating authentication via PAT in URL failed or was not attempted. Check PAT_TOKEN. Last Git error: " ++ st
    else if containsStr l "authentication failed" then
      base ++ " Authentication failed. Ensure PAT_TOKEN is correct and has repository access. Last Git error: " ++ st
    else if containsStr l "repository not found" && !containsStr l "authentication failed" then
      base ++ " Repository not found or access denied. Last Git error: " ++ st
    else
      base ++ " Last Git error: " ++ st
  else
    base ++ " No specific Git error captured, branch(es) might not exist."

/-- Caller-visible outcome of `clone_repo`: on success the cloned branch, on
failure the HTTP error; `appDirExists` records whether the working directory
is left behind (the failure path removes it, main.py lines 565-566). -/
structure CloneOutcome where
  result : Except HTTPError String
  appDirExists : Bool
deriving Repr, DecidableEq

/-- The clone endpoint after candidate-list construction, over a git oracle
keyed by branch (the URL is already fixed). -/
def cloneWithOracle (git : String → Except String Unit) (repoUrl : String)
    (branches : List String) : CloneOutcome :=
  match cloneLoop git branches "" with
  | (some b, _) => { result := .ok b, appDirExists := true }
  | (none, st) =>
    { result := .error ⟨cloneFailStatus st, cloneFailDetail repoUrl branches st⟩,
      appDirExists := false }

/-- Full clone model: the git oracle takes the effective clone URL and the
branch; the token enters only through `buildEffectiveUrl`. -/
def clone_repo_full (git : String → String → Except String Unit) (pat : Option String)
    (repoUrl : String) (branches : List String) : CloneOutcome :=
  cloneWithOracle (git (buildEffectiveUrl pat repoUrl)) repoUrl branches

/-- The candidate set built in main.py lines 487-492: the requested branch,
plus the main/master twin when applicable, written here in insertion order. -/
def candidateSet (branch : String) : List String :=
  if branch = "main" then ["main", "master"]
  else if branch = "master" then ["master", "main"]
  else [branch]

/-- The source converts the candidate *set* to a list with `list(set)`, whose
iteration order is unspecified in Python (string hashing is randomized per
process): any duplicate-free reordering of the set is a possible candidate
sequence.  Since `candidateSet` is duplicate-free, those are its permutations. -/
def branchesValid (branch : String) (l : List String) : Prop :=
  List.Perm l (candidateSet branch)

/-! ## Filesystem model and `os.walk` -/

/-- A regular file: name, size reported by `os.path.getsize`, and text content. -/
structure FileNode where
  name : String
  size : Nat
  content : String
deriving Repr, DecidableEq

/-- A directory tree: directory name, subdirectories, regular files. -/
inductive FSTree : Type where
  | mk : String → List FSTree → List FileNode → FSTree

/-- Name of the root directory of a tree. -/
def FSTree.name : FSTree → String
  | .mk n _ _ => n

/-- One `(root, dirs, files)` triple yielded by `os.walk`:  `dirName` is the
basename of the visited directory, `dirRel` its path components relative to
the walk root (empty for the root itself), `files` its regular files. -/
structure WalkEntry where
  dirName : String
  dirRel : List String
  files : List FileNode
deriving Repr, DecidableEq

/-- Directory depth below the walk root (`root.replace(app_path, '').count(os.sep)`). -/
def WalkEntry.depth (e : WalkEntry) : Nat := e.dirRel.length

mutual

/-- Top-down `os.walk` with the in-place pruning `dirs[:] = [d for d in dirs
if d not in excl]` applied before descending: the entry for this directory,
followed by the entries of its non-excluded subdirectories in order. -/
def walkT (excl : List String) (rel : List String) : FSTree → List WalkEntry
  | .mk name subs files => ⟨name, rel, files⟩ :: walkL excl rel subs

/-- Walk a list of sibling subdirectories, skipping excluded names. -/
def walkL (excl : List String) (rel : List String) : List FSTree → List WalkEntry
  | [] => []
  | t :: ts =>
    (if excl.contains t.name then [] else walkT excl (rel ++ [t.name]) t) ++ walkL excl rel ts

end

/-! ## Language Classifier (`detect_language`, main.py lines 136-176) -/

/-- The directory names excluded from the language detection walk
(main.py lines 145-146). -/
def dl_excluded : List String :=
  [".git", "node_modules", "__pycache__", "venv", "env", ".venv",
   "target", "build", "dist", ".vscode", ".idea", "docs", "tests", "test"]

/-- Model of `detect_language`.  `none` models a path that does not exist or
is not a directory, for which the source returns `"unknown"`.  The walk
accumulates the package-manifest flag and per-extension counts; the line
`jar_count += 1` references a variable that is never initialized, so the
first walked file ending in `.jar` raises `UnboundLocalError`, modelled as an
`Except.error`. -/
def detect_language : Option FSTree → Except String String
  | none => .ok "unknown"
  | some t =>
    let fs := ((walkT dl_excluded [] t).flatMap WalkEntry.files).map FileNode.name
    if fs.any (fun n => strEnds n ".jar") then
      .error "UnboundLocalError: jar_count referenced before assignment"
    else
      let hasPkg := fs.contains "package.json"
      let py := (fs.filter (fun n => strEnds n ".py")).length
      let java := (fs.filter (fun n => strEnds n ".java")).length
      .ok (if hasPkg then "nodejs"
        else if py > 0 ∧ java = 0 then "python"
        else if java > 0 then "java"
        else if py > 0 then "python"
        else "unknown")


/-! ## Image build error surface (`build_user_image`, main.py lines 259-292) -/

/-- The error detail raised on a failed `docker build`
(main.py line 289): the first 500 characters of captured stderr. -/
def buildErrorDetail (stderr : String) : String :=
  "Docker image build failed: " ++ strTake stderr 500 ++ "..."

/-! ## Deployment Applier (`instrument_app` render/apply loop,
main.py lines 621-668) -/

/-- Result of one `kubectl apply` invocation. -/
inductive KubectlResult where
  | ok (stdout stderr : String)
  | calledProcessError (stdout stderr : String)
  | fileNotFound
  | timeoutExpired
deriving Repr, DecidableEq

/-- The error detail raised on a failed `kubectl apply`
(main.py lines 657-661): the stripped stderr, or a placeholder when empty,
truncated to 500 characters. -/
def applyErrorDetail (outName stderr : String) : String :=
  let stderrMsg := if stderr = "" then "No stderr." else pyStrip stderr
  "Failed to apply K8s manifest " ++ outName ++ ": " ++ strTake stderrMsg 500 ++ "..."

/-- The fixed template/output pairs of the loop header (main.py lines 622-625):
deployment first, then service. -/
def manifestPairs (k8sAppName : String) : List (String × String) :=
  [("deployment.yaml.j2", k8sAppName ++ "-deployment.yaml"),
   ("service.yaml.j2", k8sAppName ++ "-service.yaml")]

/-- State threaded through the render/apply loop: descriptors applied so far,
the kubectl invocations made (output path and the timeout passed to
`subprocess.run`, 60 in the source), and the first error raised. -/
structure ApplyState where
  applied : List String
  calls : List (String × Nat)
  error : Option HTTPError
deriving Repr, DecidableEq

/-- The render/apply loop body over the remaining pairs.  `render` models the
Jinja `get_template` + `render` calls (errors raise HTTP 500 naming the
template); `kubectl` models the `kubectl apply -n traceassist -f path`
invocation, run with `timeout=60`.  The first failure raises and aborts the
rest; manifest file writes are assumed to succeed. -/
def applyGo (render : String → Except String String) (kubectl : String → KubectlResult) :
    List (String × String) → ApplyState → ApplyState
  | [], st => st
  | (tmpl, outName) :: rest, st =>
    match render tmpl with
    | .error e =>
      { st with error := some ⟨500, "Failed to render K8s template " ++ tmpl ++ ": " ++ e⟩ }
    | .ok _ =>
      match kubectl outName with
      | .ok _ _ =>
        applyGo render kubectl rest
          { st with applied := st.applied ++ [outName], calls := st.calls ++ [(outName, 60)] }
      | .calledProcessError _ stderr =>
        { st with calls := st.calls ++ [(outName, 60)],
                  error := some ⟨500, applyErrorDetail outName stderr⟩ }
      | .fileNotFound =>
        { st with calls := st.calls ++ [(outName, 60)],
                  error := some ⟨500, "kubectl command not found on server."⟩ }
      | .timeoutExpired =>
        { st with calls := st.calls ++ [(outName, 60)],
                  error := some ⟨500, "kubectl apply timed out for " ++ outName ++ "."⟩ }

/-- The full render/apply stage of `/instrument` for a given Kubernetes app name. -/
def applyLoop (render : String → Except String String) (kubectl : String → KubectlResult)
    (k8sAppName : String) : ApplyState :=
  applyGo render kubectl (manifestPairs k8sAppName) ⟨[], [], none⟩


/-! ## Context Extractor (`get_project_context_for_ai`, main.py lines 295-407) -/

/-- The directory names excluded from the extractor walks
(main.py lines 305, 376, 391). -/
def ext_excluded : List String :=
  [".git", "node_modules", "__pycache__", "venv", "env", ".venv",
   "target", "build", "dist", ".DS_Store"]

/-- Python `"  " * level`. -/
def indentOf (n : Nat) : String := String.mk (List.replicate (2 * n) ' ')

/-- `os.path.basename(root) or '.'`. -/
def dispName (e : WalkEntry) : String := if e.dirName = "" then "." else e.dirName

/-- The inner `for f_name in files[:4]` loop of the tree sketch
(main.py lines 318-322): one line per file while under 25 lines. -/
def fileLines (indent : String) : List FileNode → String → Nat → String × Nat
  | [], acc, n => (acc, n)
  | f :: fs, acc, n =>
    if n < 25 then fileLines indent fs (acc ++ indent ++ "  " ++ f.name ++ "\n") (n + 1)
    else (acc, n)

/-- The directory line of the tree sketch (main.py lines 314-316). -/
def treeDirStep (e : WalkEntry) (acc : String) (n : Nat) : String × Nat :=
  if n < 25 then (acc ++ indentOf e.depth ++ dispName e ++ "/\n", n + 1) else (acc, n)

/-- One walk entry of the tree sketch: the directory line, then up to four
lines for its files with `.DS_Store` filtered out (main.py lines 314-322). -/
def treeEntryStep (e : WalkEntry) (acc : String) (n : Nat) : String × Nat :=
  let s := treeDirStep e acc n
  fileLines (indentOf e.depth) ((e.files.filter (fun f => f.name ≠ ".DS_Store")).take 4) s.1 s.2

/-- The tree-sketch loop (main.py lines 304-325) over the walk entries.
Entries deeper than 3 levels are passed over (the source also clears `dirs`
there, which only hides strictly deeper entries that this fold would skip
anyway).  Each visited entry contributes its directory line and at most four
file lines while under the 25-line cap; reaching the cap appends the ellipsis
line and stops the walk. -/
def treeFold : List WalkEntry → String → Nat → String × Nat
  | [], acc, n => (acc, n)
  | e :: rest, acc, n =>
    if e.depth > 3 then treeFold rest acc n
    else
      let s := treeEntryStep e acc n
      if s.2 ≥ 25 then (s.1 ++ indentOf e.depth ++ "  ... (more files/dirs)\n", s.2)
      else treeFold rest s.1 s.2

/-- `primary_key_files_map` (main.py lines 332-336).  Note the keys: the map
uses `"node"`, while the classifier produces `"nodejs"`. -/
def primary_key_files : String → List String
  | "node" => ["package.json"]
  | "python" => ["requirements.txt", "pyproject.toml", "setup.py"]
  | "java" => ["pom.xml", "build.gradle"]
  | _ => []

/-- `secondary_key_files_map` (main.py lines 337-341). -/
def secondary_key_files : String → List String
  | "node" => ["server.js", "app.js", "index.js", "vite.config.js", "next.config.js"]
  | "python" => ["main.py", "app.py", "wsgi.py", "asgi.py"]
  | "java" => ["Main.java", "Application.java", "application.properties", "application.yml"]
  | _ => []

/-- `source_extensions` (main.py lines 385-387). -/
def source_extensions : String → List String
  | "python" => [".py"]
  | "node" => [".js", ".jsx", ".ts", ".tsx"]
  | "java" => [".java"]
  | _ => []

/-- Mutable state of the extractor: gathered parts, the running character
count, the number of files whose content was read, and the set of file paths
already processed (paths as components relative to the walk root). -/
structure ExtState where
  parts : List String
  chars : Nat
  filesRead : Nat
  processed : List (List String)
deriving Repr, DecidableEq

/-- `read_and_append` (main.py lines 349-373).  Returns the Python function
result (False stops the caller from scanning further candidates) and the
updated state.  A file is appended when its size is positive and at most
15 KiB and the header plus content still fit strictly under the 12,000
character budget; a too-large addition returns False only if something was
already read.  Individual read errors are skipped in the source and not
modelled (reads succeed). -/
def read_and_append (path : List String) (f : FileNode) (st : ExtState) : Bool × ExtState :=
  if st.filesRead ≥ 7 ∨ st.chars ≥ 12000 then (false, st)
  else if 0 < f.size ∧ f.size ≤ 15360 then
    let content := strTake f.content 15360
    let rel := String.intercalate "/" path
    let header := "\n--- Content of " ++ rel ++ " ---\n"
    if st.chars + content.length + header.length < 12000 then
      (true,
        { parts := st.parts ++ [header ++ content],
          chars := st.chars + content.length + header.length,
          filesRead := st.filesRead + 1,
          processed := st.processed ++ [path] })
    else if 0 < st.filesRead then (false, st)
    else (true, st)
  else (true, st)

/-- The candidate loop inside one directory (main.py lines 378-382): for each
candidate name present in the directory and not yet processed, read it; a
False result breaks out of the candidate loop. -/
def phase2Cands (e : WalkEntry) : List String → ExtState → ExtState
  | [], st => st
  | cf :: rest, st =>
    match e.files.find? (fun f => f.name = cf) with
    | some f =>
      let path := e.dirRel ++ [cf]
      if st.processed.contains path then phase2Cands e rest st
      else
        let r := read_and_append path f st
        if r.1 then phase2Cands e rest r.2 else r.2
    | none => phase2Cands e rest st

/-- The key-file walk (main.py lines 375-383): per directory the candidate
loop, stopping the walk once a budget is exhausted. -/
def phase2Outer (cands : List String) : List WalkEntry → ExtState → ExtState
  | [], st => st
  | e :: rest, st =>
    let st1 := phase2Cands e cands st
    if st1.filesRead ≥ 7 ∨ st1.chars ≥ 12000 then st1
    else phase2Outer cands rest st1

/-- The sort key of main.py line 392: ascending by name length, then name. -/
def fileKeyLe (a b : FileNode) : Bool :=
  a.name.length < b.name.length || (a.name.length = b.name.length && a.name ≤ b.name)

/-- Stable insertion, keeping earlier equal-key elements first. -/
def insertFile (a : FileNode) : List FileNode → List FileNode
  | [] => [a]
  | b :: bs => if fileKeyLe b a then b :: insertFile a bs else a :: b :: bs

/-- Stable sort by `fileKeyLe`, modelling `files.sort(key=lambda name: (len(name), name))`. -/
def sortFiles : List FileNode → List FileNode
  | [] => []
  | a :: as => insertFile a (sortFiles as)

/-- The per-file loop of the breadth fallback (main.py lines 394-399): source
files by extension, unprocessed, in directories at depth at most 2. -/
def phase3Files (e : WalkEntry) (exts : List String) : List FileNode → ExtState → ExtState
  | [], st => st
  | f :: rest, st =>
    if exts.any (fun ext => strEnds f.name ext) then
      let path := e.dirRel ++ [f.name]
      if st.processed.contains path then phase3Files e exts rest st
      else if e.depth ≤ 2 then
        let r := read_and_append path f st
        if r.1 then phase3Files e exts rest r.2 else r.2
      else phase3Files e exts rest st
    else phase3Files e exts rest st

/-- The breadth-fallback walk (main.py lines 390-400). -/
def phase3Outer (exts : List String) : List WalkEntry → ExtState → ExtState
  | [], st => st
  | e :: rest, st =>
    let st1 := phase3Files e exts (sortFiles e.files) st
    if st1.filesRead ≥ 7 ∨ st1.chars ≥ 12000 then st1
    else phase3Outer exts rest st1

/-- The sentinel returned when nothing was gathered (main.py line 403). -/
def noContextSentinel : String :=
  "No readable project files found or project is empty; cannot provide AI analysis."

/-- The extractor pipeline over a fixed walk-entry list: tree sketch, key
files, breadth fallback (main.py lines 295-401). -/
def get_project_context_core (entries : List WalkEntry) (lang : String) : ExtState :=
  let tree := treeFold entries "Project structure (partial):\n" 0
  let st0 : ExtState :=
    if 0 < tree.2 then ⟨[tree.1], tree.1.length, 0, []⟩ else ⟨[], 0, 0, []⟩
  let cands := "README.md" :: (primary_key_files lang ++ secondary_key_files lang)
  let st1 := phase2Outer cands entries st0
  let exts := source_extensions lang
  if exts ≠ [] ∧ st1.filesRead < 7 ∧ st1.chars < 12000 then phase3Outer exts entries st1
  else st1

/-- The extractor state for a working directory. -/
def extractorState (t : FSTree) (lang : String) : ExtState :=
  get_project_context_core (walkT ext_excluded [] t) lang

/-- Model of `get_project_context_for_ai`: the joined parts, or the sentinel
when nothing at all was gathered (main.py lines 402-407). -/
def get_project_context_for_ai (t : FSTree) (lang : String) : String :=
  let st := extractorState t lang
  if st.parts = [] then noContextSentinel else String.join st.parts


/-- Concrete render oracle for the C4 witness. -/
def renderOK : String → Except String String := fun _ => .ok "yaml"

/-- Concrete kubectl oracle for the C4 witness: deployment applies, service fails. -/
def kubectlDepOnly : String → KubectlResult := fun p =>
  if p = "user-app-w-deployment.yaml" then .ok "" "" else .calledProcessError "" "boom"

/-- A stderr longer than any permitted truncation: 501 identical characters. -/
def longStderr : String := String.mk (List.replicate 501 'e')

/-- The extractor state invariant: the character counter equals the total
length of the gathered parts, at most 7 files were read, and the counter is
strictly under the budget. -/
def ExtInv (st : ExtState) : Prop :=
  st.chars = partsLen st.parts ∧ st.filesRead ≤ 7 ∧ st.chars < 12000

/-- All names of a walk entry fit in a real filesystem name slot
(`NAME_MAX`, 255 characters). -/
def entryNamesOk (e : WalkEntry) : Prop :=
  e.dirName.length ≤ 255 ∧ ∀ f ∈ e.files, f.name.length ≤ 255

instance : DecidablePred entryNamesOk := fun e => by
  unfold entryNamesOk; infer_instance

/-! ## Further helpers for claim statements -/

/-- Status of a clone outcome, when it is an error. -/
def outcomeStatus (o : CloneOutcome) : Option Nat :=
  match o.result with
  | .error e => some e.status
  | .ok _ => none

/-- A git oracle behaving like real git on a credential problem: the error
text echoes the URL it was invoked with (git prints the remote URL, userinfo
included, in such messages). -/
def echoGit : String → String → Except String Unit :=
  fun url _ => .error ("fatal: could not read Password for " ++ url)

/-- A git stderr reporting a missing remote ref, as git emits it. -/
def refErr : String := "fatal: couldn" ++ apos ++ "t find remote ref main"

/-- A git oracle for which every branch is missing. -/
def refErrGit : String → Except String Unit := fun _ => .error refErr

/-- A git oracle failing authentication on every branch. -/
def authErrGit : String → Except String Unit :=
  fun _ => .error "fatal: Authentication failed for url"

/-! ## Helper lemmas -/

theorem strLenAppend (a b : String) : (a ++ b).length = a.length + b.length :=
  String.length_append a b

theorem strTake_len_le (s : String) (n : Nat) : (strTake s n).length ≤ n := by
  simp only [strTake, String.length]
  exact List.length_take_le n s.data

theorem partsLen_append (l : List String) (x : String) :
    partsLen (l ++ [x]) = partsLen l + x.length := by
  simp [partsLen]

theorem foldl_append_len (l : List String) :
    ∀ a : String, (l.foldl (· ++ ·) a).length = a.length + partsLen l := by
  induction l with
  | nil => intro a; simp [partsLen]
  | cons h t ih =>
    intro a
    simp only [List.foldl_cons, ih, strLenAppend, partsLen, List.map_cons, List.sum_cons]
    omega

theorem join_len (l : List String) : (String.join l).length = partsLen l := by
  have h := foldl_append_len l ""
  simpa [String.join] using h

theorem indentOf_len (n : Nat) : (indentOf n).length = 2 * n := by
  simp [indentOf, String.length]

/-! ## Claim theorems -/

/-- C1 (code_bug): for an archive with a traversal entry, `upload_zip` does
remove the working directory and the temporary archive, but the caller does
not receive the `InvalidArchiveEntry` (HTTP 400) error: the broad
`except Exception` catches the inner `HTTPException(400, "Invalid file path
in zip archive.")` and re-raises HTTP 500 with a wrapped detail. -/
theorem upload_traversal_error_is_wrapped_500 :
    upload_zip true ["src/app.py", "../evil.txt"] =
      { response := .error
          ⟨500, "Failed to process uploaded file: 400: Invalid file path in zip archive."⟩,
        appDirExists := false,
        zipFileExists := false } := by decide

/-- C3 (code_bug): `detect_language` is not total.  A directory containing a
`.jar` file makes the source hit `jar_count += 1` where `jar_count` was never
initialized, raising `UnboundLocalError` instead of returning a label; a path
that is not a directory does return `"unknown"` as claimed. -/
theorem detect_language_jar_crash :
    detect_language (some (.mk "app" [] [⟨"lib.jar", 1024, ""⟩])) =
      .error "UnboundLocalError: jar_count referenced before assignment"
    ∧ detect_language none = .ok "unknown" := by decide

/-- C8 counterexample: the input `" master "` is neither `null`, nor
whitespace-only, nor the literal string `"master"`, so the claim requires the
trimmed value `"master"`; the code instead strips first and then compares,
yielding `"main"`. -/
theorem normalize_space_master_cex :
    normalize_default_branch (some " master ") = "main"
    ∧ " master " ≠ "master"
    ∧ pyStrip " master " = "master"
    ∧ "main" ≠ "master" := by decide

/-- C8 amended: normalization maps `null` to `"main"`, any input whose
stripped value is empty or `"master"` to `"main"`, and any other input to its
stripped value; the result is never empty. -/
theorem normalize_branch_amended :
    normalize_default_branch none = "main"
    ∧ (∀ v : String, pyStrip v = "" → normalize_default_branch (some v) = "main")
    ∧ (∀ v : String, pyStrip v = "master" → normalize_default_branch (some v) = "main")
    ∧ (∀ v : String, pyStrip v ≠ "" → pyStrip v ≠ "master" →
        normalize_default_branch (some v) = pyStrip v)
    ∧ (∀ o : Option String, normalize_default_branch o ≠ "") := by
  refine ⟨rfl, ?_, ?_, ?_, ?_⟩
  · intro v h; simp [normalize_default_branch, h]
  · intro v h; simp [normalize_default_branch, h]
  · intro v h1 h2; simp [normalize_default_branch, h1, h2]
  · intro o
    match o with
    | none => decide
    | some v =>
      simp only [normalize_default_branch]
      split_ifs with h1 h2
      · decide
      · decide
      · exact h1

/-- Witness for the amended C8 theorem at a concrete input. -/
theorem normalize_branch_amended_witness :
    normalize_default_branch (some " dev ") = pyStrip " dev " :=
  normalize_branch_amended.2.2.2.1 " dev " (by decide) (by decide)

/-- C10: the upload check rejects every member containing the two-character
substring `..` anywhere, and `notes..txt` is such a member while not being a
path-traversal entry, so the rejection is strictly broader than traversal. -/
theorem upload_rejects_any_dotdot :
    (∀ (members : List String) (m : String), m ∈ members → containsStr m ".." = true →
      responseIsError (upload_zip true members).response = true)
    ∧ containsStr "notes..txt" ".." = true
    ∧ isPathTraversal "notes..txt" = false := by
  refine ⟨?_, by decide, by decide⟩
  intro members m hm hc
  have hbad : badEntry m = true := by simp [badEntry, hc]
  unfold upload_zip
  simp only [Bool.not_true, Bool.false_eq_true, if_false]
  cases hfind : members.find? badEntry with
  | some x => simp [responseIsError]
  | none =>
    exact absurd hbad (by simpa using List.find?_eq_none.mp hfind m hm)

/-- Witness for C10 at the concrete member `notes..txt`. -/
theorem upload_rejects_any_dotdot_witness :
    responseIsError (upload_zip true ["notes..txt"]).response = true :=
  upload_rejects_any_dotdot.1 ["notes..txt"] "notes..txt" (by decide) (by decide)

/-- C2 counterexample: with a git oracle that echoes the clone URL into its
error text (as real git does on credential prompts), two runs differing only
in the configured token produce different caller-visible error details,
because the detail embeds the stderr verbatim and the effective URL carries
the token in its userinfo. -/
theorem clone_token_leaks_via_stderr_cex :
    clone_repo_full echoGit (some "tokenAAAA") "https://github.com/u/r.git" ["main"] ≠
    clone_repo_full echoGit (some "tokenBBBB") "https://github.com/u/r.git" ["main"] := by
  decide

/-- C2 amended: the caller-visible outcome depends on the token only through
the external git call.  If the oracle responds identically at the two
effective URLs, two runs differing only in the token are indistinguishable;
in particular the code itself never writes the token into the response. -/
theorem clone_token_noninterference_amended :
    ∀ (git : String → String → Except String Unit) (p1 p2 : Option String)
      (url : String) (branches : List String),
      git (buildEffectiveUrl p1 url) = git (buildEffectiveUrl p2 url) →
      clone_repo_full git p1 url branches = clone_repo_full git p2 url branches := by
  intro git p1 p2 url branches h
  unfold clone_repo_full
  rw [h]

/-- Witness for the amended C2 theorem with a token-blind oracle. -/
theorem clone_token_noninterference_amended_witness :
    clone_repo_full (fun _ _ => .error "boom") (some "tokenAAAA")
        "https://github.com/u/r.git" ["main"] =
      clone_repo_full (fun _ _ => .error "boom") (some "tokenBBBB")
        "https://github.com/u/r.git" ["main"] :=
  clone_token_noninterference_amended (fun _ _ => .error "boom") (some "tokenAAAA")
    (some "tokenBBBB") "https://github.com/u/r.git" ["main"] rfl

/-- C7 counterexample: the candidate list is produced by `list(set)`, so any
duplicate-free enumeration of the two-element set is a possible candidate
sequence; the enumeration `["master", "main"]` for requested branch `"main"`
is valid yet does not attempt the requested branch first. -/
theorem branch_candidates_order_cex :
    branchesValid "main" ["master", "main"]
    ∧ ["master", "main"] ≠ candidateSet "main"
    ∧ List.headD ["master", "main"] "" ≠ "main" := by
  refine ⟨?_, by decide, by decide⟩
  unfold branchesValid
  decide

/-- C7 amended: every possible candidate sequence has at most two entries and
contains exactly the requested branch together with its main/master twin when
applicable; the attempt order, however, is unspecified. -/
theorem branch_candidates_amended :
    ∀ (branch : String) (l : List String), branchesValid branch l →
      l.length ≤ 2
      ∧ (∀ b, b ∈ l ↔
          (b = branch ∨ (branch = "main" ∧ b = "master") ∨ (branch = "master" ∧ b = "main"))) := by
  intro branch l h
  have hlen := h.length_eq
  have hmem : ∀ b, b ∈ l ↔ b ∈ candidateSet branch := fun b => h.mem_iff
  constructor
  · rw [hlen]; unfold candidateSet; split_ifs <;> simp
  · intro b
    rw [hmem b]
    unfold candidateSet
    split_ifs with h1 h2
    · subst h1
      simp only [List.mem_cons, List.not_mem_nil, or_false]
      have hr : ("main" : String) = "main" := rfl
      have hne : ¬ ("main" : String) = "master" := by decide
      tauto
    · subst h2
      simp only [List.mem_cons, List.not_mem_nil, or_false]
      have hr : ("master" : String) = "master" := rfl
      have hne : ¬ ("master" : String) = "main" := by decide
      tauto
    · simp only [List.mem_cons, List.not_mem_nil, or_false]
      tauto

/-- Witness for the amended C7 theorem at a concrete enumeration. -/
theorem branch_candidates_amended_witness :
    (["master", "main"] : List String).length ≤ 2
    ∧ ("master" ∈ (["master", "main"] : List String) ↔
        ("master" = "main" ∨ ("main" = "main" ∧ "master" = "master")
          ∨ ("main" = "master" ∧ "master" = "main"))) :=
  ⟨(branch_candidates_amended "main" ["master", "main"] (by unfold branchesValid; decide)).1,
   (branch_candidates_amended "main" ["master", "main"] (by unfold branchesValid; decide)).2 "master"⟩

/-- The final status mapping agrees with the in-loop classification chain on
nonempty stderr, sending only `repoNotFound` to 404 and only `authFailed`
to 403; both branch-not-found and unclassified errors get 500. -/
theorem cloneFailStatus_classify (st : String) (h : st ≠ "") :
    cloneFailStatus st =
      (match classifyStderr st with
       | .authConfig => 500
       | .authFailed => 403
       | .repoNotFound => 404
       | .branchNotFound => 500
       | .other => 500) := by
  simp only [cloneFailStatus, classifyStderr, if_pos h]
  split_ifs <;> rfl

/-- C6 counterexample: when every candidate branch is missing, the last error
classifies as branch-not-found, yet the caller receives status 500 (the final
mapping has no branch-not-found case), not the claimed 404. -/
theorem clone_branchnotfound_gets_500_cex :
    classifyStderr refErr = .branchNotFound
    ∧ outcomeStatus (cloneWithOracle refErrGit "https://github.com/u/r.git" ["main", "master"])
        = some 500
    ∧ (500 : Nat) ≠ 404 := by decide

/-- C6 amended: on exhaustion the working directory is removed and the error
carries `cloneFailStatus`/`cloneFailDetail` of the last stderr; the status
mapping is: credential-prompt pattern 500, authentication failure 403,
repository-not-found 404, branch-not-found 500, any other error 500, and 404
when no stderr was captured at all. -/
theorem clone_exhausted_mapping :
    ∀ (git : String → Except String Unit) (url : String) (branches : List String) (st : String),
      cloneLoop git branches "" = (none, st) →
      (cloneWithOracle git url branches).appDirExists = false
      ∧ (cloneWithOracle git url branches).result =
          .error ⟨cloneFailStatus st, cloneFailDetail url branches st⟩
      ∧ (st = "" → cloneFailStatus st = 404)
      ∧ (st ≠ "" → classifyStderr st = .authConfig → cloneFailStatus st = 500)
      ∧ (st ≠ "" → classifyStderr st = .authFailed → cloneFailStatus st = 403)
      ∧ (st ≠ "" → classifyStderr st = .repoNotFound → cloneFailStatus st = 404)
      ∧ (st ≠ "" → classifyStderr st = .branchNotFound → cloneFailStatus st = 500)
      ∧ (st ≠ "" → classifyStderr st = .other → cloneFailStatus st = 500) := by
  intro git url branches st h
  refine ⟨?_, ?_, ?_, ?_, ?_, ?_, ?_, ?_⟩
  · simp [cloneWithOracle, h]
  · simp [cloneWithOracle, h]
  · intro he; subst he; decide
  · intro hne hc; rw [cloneFailStatus_classify st hne, hc]
  · intro hne hc; rw [cloneFailStatus_classify st hne, hc]
  · intro hne hc; rw [cloneFailStatus_classify st hne, hc]
  · intro hne hc; rw [cloneFailStatus_classify st hne, hc]
  · intro hne hc; rw [cloneFailStatus_classify st hne, hc]

/-- Witness for the amended C6 theorem: an authentication failure on the only
candidate removes the directory and maps to 403. -/
theorem clone_exhausted_mapping_witness :
    (cloneWithOracle authErrGit "https://github.com/u/r.git" ["main"]).appDirExists = false
    ∧ cloneFailStatus "fatal: Authentication failed for url" = 403 :=
  have h := clone_exhausted_mapping authErrGit "https://github.com/u/r.git" ["main"]
    "fatal: Authentication failed for url" (by decide)
  ⟨h.1, h.2.2.2.2.1 (by decide) (by decide)⟩

/-- C4: the render/apply loop visits the fixed pairs deployment-then-service,
passing `timeout=60` to every cluster-CLI call, so the recorded call sequence
is always a prefix of that order; and when the deployment descriptor applies
cleanly while the service descriptor fails, the loop stops with exactly the
deployment in the applied list and raises the apply error for the service
descriptor. -/
theorem deployment_before_service_with_60s_timeout :
    (∀ (render : String → Except String String) (kubectl : String → KubectlResult)
      (name : String),
      (applyLoop render kubectl name).calls = []
      ∨ (applyLoop render kubectl name).calls = [(name ++ "-deployment.yaml", 60)]
      ∨ (applyLoop render kubectl name).calls =
          [(name ++ "-deployment.yaml", 60), (name ++ "-service.yaml", 60)])
    ∧ (∀ (render : String → Except String String) (kubectl : String → KubectlResult)
        (name c1 c2 o1 e1 o2 st : String),
        render "deployment.yaml.j2" = .ok c1 →
        render "service.yaml.j2" = .ok c2 →
        kubectl (name ++ "-deployment.yaml") = .ok o1 e1 →
        kubectl (name ++ "-service.yaml") = .calledProcessError o2 st →
        (applyLoop render kubectl name).applied = [name ++ "-deployment.yaml"]
        ∧ (applyLoop render kubectl name).error =
            some ⟨500, applyErrorDetail (name ++ "-service.yaml") st⟩) := by
  constructor
  · intro render kubectl name
    unfold applyLoop manifestPairs
    cases h1 : render "deployment.yaml.j2" with
    | error e => simp [applyGo, h1]
    | ok c =>
      cases h2 : kubectl (name ++ "-deployment.yaml") with
      | ok o e' =>
        cases h3 : render "service.yaml.j2" with
        | error e => simp [applyGo, h1, h2, h3]
        | ok c2 =>
          cases h4 : kubectl (name ++ "-service.yaml") <;> simp [applyGo, h1, h2, h3, h4]
      | calledProcessError o e' => simp [applyGo, h1, h2]
      | fileNotFound => simp [applyGo, h1, h2]
      | timeoutExpired => simp [applyGo, h1, h2]
  · intro render kubectl name c1 c2 o1 e1 o2 st h1 h2 h3 h4
    unfold applyLoop manifestPairs
    constructor <;> simp [applyGo, h1, h2, h3, h4]


/-- Witness for C4 at concrete oracles. -/
theorem deployment_before_service_with_60s_timeout_witness :
    (applyLoop renderOK kubectlDepOnly "user-app-w").applied = ["user-app-w-deployment.yaml"]
    ∧ (applyLoop renderOK kubectlDepOnly "user-app-w").error =
        some ⟨500, applyErrorDetail "user-app-w-service.yaml" "boom"⟩ :=
  deployment_before_service_with_60s_timeout.2 renderOK kubectlDepOnly "user-app-w"
    "yaml" "yaml" "" "" "" "boom" rfl rfl (by decide) (by decide)


set_option maxRecDepth 40000 in
/-- C9 counterexample: the clone failure path surfaces the captured stderr in
full.  With a 501-character stderr the returned detail ends with the whole
stderr, so more than 500 of its characters reach the caller. -/
theorem clone_stderr_untruncated_cex :
    cloneFailDetail "https://github.com/u/r.git" ["main"] longStderr =
      "Failed to clone from repository https://github.com/u/r.git on tried branch(es): main." ++
        " Last Git error: " ++ longStderr
    ∧ longStderr.length = 501 := by
  constructor
  · decide
  · decide

/-- C9 amended: the build and apply error details include at most 500
characters of stderr (their total lengths are bounded by a constant, resp. a
constant plus the manifest name), while the clone failure detail contains the
last stderr in full, so its length is at least the stderr length. -/
theorem stderr_truncation_amended :
    ∀ (st outName url : String) (branches : List String),
      (buildErrorDetail st).length ≤ 530
      ∧ (applyErrorDetail outName st).length ≤ outName.length + 534
      ∧ st.length ≤ (cloneFailDetail url branches st).length := by
  intro st outName url branches
  refine ⟨?_, ?_, ?_⟩
  · unfold buildErrorDetail
    rw [strLenAppend, strLenAppend]
    have h := strTake_len_le st 500
    have h1 : ("Docker image build failed: " : String).length = 27 := by decide
    have h2 : ("..." : String).length = 3 := by decide
    omega
  · simp only [applyErrorDetail]
    rw [strLenAppend, strLenAppend, strLenAppend, strLenAppend]
    have h := strTake_len_le (if st = "" then "No stderr." else pyStrip st) 500
    have h1 : ("Failed to apply K8s manifest " : String).length = 29 := by decide
    have h2 : (": " : String).length = 2 := by decide
    have h3 : ("..." : String).length = 3 := by decide
    omega
  · simp only [cloneFailDetail]
    split_ifs with hne c1 c2 c3
    · rw [strLenAppend]; omega
    · rw [strLenAppend]; omega
    · rw [strLenAppend]; omega
    · rw [strLenAppend]; omega
    · have h0 : st = "" := not_not.mp hne
      subst h0
      have h1 : ("" : String).length = 0 := rfl
      rw [h1]
      exact Nat.zero_le _

/-! ## Extractor budget invariants (for C5) -/


theorem raa_inv (path : List String) (f : FileNode) (st : ExtState) (h : ExtInv st) :
    ExtInv (read_and_append path f st).2 := by
  obtain ⟨h1, h2, h3⟩ := h
  unfold ExtInv
  simp only [read_and_append]
  split_ifs with c1 c2 c3 c4
  · exact ⟨h1, h2, h3⟩
  · push_neg at c1
    dsimp only
    refine ⟨?_, by omega, by omega⟩
    rw [partsLen_append]
    simp only [strLenAppend]
    omega
  · exact ⟨h1, h2, h3⟩
  · exact ⟨h1, h2, h3⟩
  · exact ⟨h1, h2, h3⟩

theorem phase2Cands_inv (e : WalkEntry) (cands : List String) (st : ExtState)
    (h : ExtInv st) : ExtInv (phase2Cands e cands st) := by
  induction cands generalizing st with
  | nil => simpa [phase2Cands] using h
  | cons cf rest ih =>
    simp only [phase2Cands]
    cases hf : e.files.find? (fun f => f.name = cf) with
    | none => exact ih st h
    | some f =>
      dsimp only
      split_ifs with hp hb
      · exact ih st h
      · exact ih _ (raa_inv (e.dirRel ++ [cf]) f st h)
      · exact raa_inv (e.dirRel ++ [cf]) f st h

theorem phase2Outer_inv (cands : List String) (entries : List WalkEntry) (st : ExtState)
    (h : ExtInv st) : ExtInv (phase2Outer cands entries st) := by
  induction entries generalizing st with
  | nil => simpa [phase2Outer] using h
  | cons e rest ih =>
    simp only [phase2Outer]
    split_ifs with hstop
    · exact phase2Cands_inv e cands st h
    · exact ih _ (phase2Cands_inv e cands st h)

theorem phase3Files_inv (e : WalkEntry) (exts : List String) (fs : List FileNode)
    (st : ExtState) (h : ExtInv st) : ExtInv (phase3Files e exts fs st) := by
  induction fs generalizing st with
  | nil => simpa [phase3Files] using h
  | cons f rest ih =>
    simp only [phase3Files]
    split_ifs with ha hp hd hb
    · exact ih st h
    · exact ih _ (raa_inv (e.dirRel ++ [f.name]) f st h)
    · exact raa_inv (e.dirRel ++ [f.name]) f st h
    · exact ih st h
    · exact ih st h

theorem phase3Outer_inv (exts : List String) (entries : List WalkEntry) (st : ExtState)
    (h : ExtInv st) : ExtInv (phase3Outer exts entries st) := by
  induction entries generalizing st with
  | nil => simpa [phase3Outer] using h
  | cons e rest ih =>
    simp only [phase3Outer]
    split_ifs with hstop
    · exact phase3Files_inv e exts (sortFiles e.files) st h
    · exact ih _ (phase3Files_inv e exts (sortFiles e.files) st h)


theorem fileLines_TB (indent : String) (hi : indent.length ≤ 6) :
    ∀ (fs : List FileNode) (acc : String) (n : Nat),
      (∀ f ∈ fs, f.name.length ≤ 255) → n ≤ 25 → acc.length ≤ 29 + 264 * n →
      (fileLines indent fs acc n).2 ≤ 25 ∧
        (fileLines indent fs acc n).1.length ≤ 29 + 264 * (fileLines indent fs acc n).2 := by
  intro fs
  induction fs with
  | nil => intro acc n _ hn ha; simpa [fileLines] using ⟨hn, ha⟩
  | cons f rest ih =>
    intro acc n hf hn ha
    simp only [fileLines]
    split_ifs with hlt
    · apply ih
      · intro g hg; exact hf g (List.mem_cons_of_mem f hg)
      · omega
      · have hfn : f.name.length ≤ 255 := hf f (List.mem_cons_self f rest)
        rw [strLenAppend, strLenAppend, strLenAppend, strLenAppend]
        have h2 : ("  " : String).length = 2 := rfl
        have h3 : ("\n" : String).length = 1 := rfl
        omega
    · exact ⟨hn, ha⟩

theorem treeEntryStep_TB (e : WalkEntry) (acc : String) (n : Nat)
    (he : entryNamesOk e) (hd : e.depth ≤ 3) (hn : n ≤ 25)
    (ha : acc.length ≤ 29 + 264 * n) :
    (treeEntryStep e acc n).2 ≤ 25 ∧
      (treeEntryStep e acc n).1.length ≤ 29 + 264 * (treeEntryStep e acc n).2 := by
  obtain ⟨hdir, hfiles⟩ := he
  have hind : (indentOf e.depth).length ≤ 6 := by rw [indentOf_len]; omega
  have hdisp : (dispName e).length ≤ 255 := by
    unfold dispName; split_ifs with h0
    · decide
    · exact hdir
  have hstep : (treeDirStep e acc n).2 ≤ 25 ∧
      (treeDirStep e acc n).1.length ≤ 29 + 264 * (treeDirStep e acc n).2 := by
    unfold treeDirStep
    split_ifs with hlt
    · constructor
      · omega
      · rw [strLenAppend, strLenAppend, strLenAppend]
        have h2 : ("/\n" : String).length = 2 := rfl
        omega
    · exact ⟨hn, ha⟩
  unfold treeEntryStep
  apply fileLines_TB (indentOf e.depth) hind _ _ _ _ hstep.1 hstep.2
  intro g hg
  have h1 : g ∈ e.files.filter (fun f => f.name ≠ ".DS_Store") := List.mem_of_mem_take hg
  exact hfiles g (List.mem_filter.mp h1).1

theorem treeFold_bound :
    ∀ (entries : List WalkEntry) (acc : String) (n : Nat),
      (∀ e ∈ entries, entryNamesOk e) → n ≤ 25 → acc.length ≤ 29 + 264 * n →
      (treeFold entries acc n).1.length ≤ 6659 := by
  intro entries
  induction entries with
  | nil =>
    intro acc n _ hn ha
    simp only [treeFold]
    omega
  | cons e rest ih =>
    intro acc n he hn ha
    simp only [treeFold]
    split_ifs with hd hbreak
    · exact ih acc n (fun x hx => he x (List.mem_cons_of_mem e hx)) hn ha
    · push_neg at hd
      have hTB := treeEntryStep_TB e acc n (he e (List.mem_cons_self e rest)) hd hn ha
      rw [strLenAppend, strLenAppend]
      have hind : (indentOf e.depth).length ≤ 6 := by
        rw [indentOf_len]; omega
      have h24 : ("  ... (more files/dirs)\n" : String).length = 24 := rfl
      omega
    · push_neg at hd
      have hTB := treeEntryStep_TB e acc n (he e (List.mem_cons_self e rest)) hd hn ha
      exact ih _ _ (fun x hx => he x (List.mem_cons_of_mem e hx)) hTB.1 hTB.2

theorem get_project_context_core_inv (entries : List WalkEntry) (lang : String)
    (hn : ∀ e ∈ entries, entryNamesOk e) :
    ExtInv (get_project_context_core entries lang) := by
  have h29 : ("Project structure (partial):\n" : String).length = 29 := rfl
  have htree := treeFold_bound entries "Project structure (partial):\n" 0 hn
    (by omega) (by omega)
  simp only [get_project_context_core]
  set tr := treeFold entries "Project structure (partial):\n" 0 with htr
  have hA : ExtInv (⟨[tr.1], tr.1.length, 0, []⟩ : ExtState) := by
    refine ⟨?_, ?_, ?_⟩ <;> dsimp only
    · simp [partsLen]
    · omega
    · omega
  have hB : ExtInv (⟨[], 0, 0, []⟩ : ExtState) := by
    refine ⟨?_, ?_, ?_⟩ <;> dsimp only
    · simp [partsLen]
    · omega
    · omega
  split_ifs <;>
    first
      | exact phase3Outer_inv _ entries _ (phase2Outer_inv _ entries _ hA)
      | exact phase2Outer_inv _ entries _ hA
      | exact phase3Outer_inv _ entries _ (phase2Outer_inv _ entries _ hB)
      | exact phase2Outer_inv _ entries _ hB

/-- C5 counterexample: for an empty (but existing) working directory the walk
still yields the root entry, the tree sketch is emitted, and the extractor
returns the sketch — not the fixed sentinel the claim requires. -/
theorem empty_dir_returns_tree_not_sentinel :
    get_project_context_for_ai (.mk "appdir" [] []) "unknown" ≠ noContextSentinel := by
  decide

/-- C5 amended: the extractor reads at most 7 files, and its output stays
strictly under 12,000 characters whenever every file and directory name fits
the real filesystem name bound of 255 characters; for an empty working
directory it returns the tree sketch rather than the sentinel. -/
theorem context_extractor_budgets :
    (∀ (t : FSTree) (lang : String),
      (∀ e ∈ walkT ext_excluded [] t, entryNamesOk e) →
      (extractorState t lang).filesRead ≤ 7
      ∧ (get_project_context_for_ai t lang).length < 12000)
    ∧ get_project_context_for_ai (.mk "appdir" [] []) "unknown" =
        "Project structure (partial):\nappdir/\n" := by
  constructor
  · intro t lang h
    have hinv := get_project_context_core_inv (walkT ext_excluded [] t) lang h
    refine ⟨hinv.2.1, ?_⟩
    simp only [get_project_context_for_ai, extractorState]
    split_ifs with hp
    · decide
    · rw [join_len, ← hinv.1]
      exact hinv.2.2
  · decide

/-- Witness for the amended C5 theorem at a concrete small directory. -/
theorem context_extractor_budgets_witness :
    (extractorState (.mk "a" [] [⟨"README.md", 5, "hello"⟩]) "python").filesRead ≤ 7
    ∧ (get_project_context_for_ai (.mk "a" [] [⟨"README.md", 5, "hello"⟩]) "python").length
        < 12000 :=
  context_extractor_budgets.1 (.mk "a" [] [⟨"README.md", 5, "hello"⟩]) "python" (by decide)
